import Mathlib

/-!
Verification of the type-mapping layer of `src/common/data_type.rs`
(`DataTypeMap::map_from_arrow_type`, `DataTypeMap::map_from_scalar_value`,
`DataTypeMap::map_from_scalar_to_arrow`, and the pymethod
`DataTypeMap::py_map_from_sql_type`).

The Rust enums (`DataType`, `TimeUnit`, `IntervalUnit`, `ScalarValue`,
`SqlType`, `PythonType`) are embedded as Lean inductives; `Result<T, PyErr>`
becomes `Except PyErr T`.  Arrow's `Field` carries further bookkeeping
(dict id, metadata) never read by this file; the embedding keeps the
identity-relevant components (name, data type, nullability).  Float payloads
of scalars are never inspected by the code, so they are carried as opaque
integer payloads.  The error constructor
`py_datafusion_err(DataFusionError::NotImplemented(format!("{:?}", t)))`
is embedded with an explicit debug-formatting function mirroring the derived
`Debug` output on the modelled components.
-/

namespace DataFusionPy

/-- Arrow `TimeUnit` (from `datafusion::arrow::datatypes`). -/
inductive TimeUnit where
  | Second
  | Millisecond
  | Microsecond
  | Nanosecond
deriving DecidableEq

/-- Arrow `IntervalUnit` (from `datafusion::arrow::datatypes`). -/
inductive IntervalUnit where
  | YearMonth
  | DayTime
  | MonthDayNano
deriving DecidableEq

/-- Arrow `UnionMode`. -/
inductive UnionMode where
  | Sparse
  | Dense
deriving DecidableEq

mutual
/-- Arrow `DataType` enum, exactly the variants matched by
`map_from_arrow_type` in `src/common/data_type.rs`. -/
inductive DataType where
  | Null
  | Boolean
  | Int8
  | Int16
  | Int32
  | Int64
  | UInt8
  | UInt16
  | UInt32
  | UInt64
  | Float16
  | Float32
  | Float64
  | Timestamp (unit : TimeUnit) (tz : Option String)
  | Date32
  | Date64
  | Time32 (unit : TimeUnit)
  | Time64 (unit : TimeUnit)
  | Duration (unit : TimeUnit)
  | Interval (unit : IntervalUnit)
  | Binary
  | FixedSizeBinary (size : Int)
  | LargeBinary
  | Utf8
  | LargeUtf8
  | List (field : Field)
  | FixedSizeList (field : Field) (size : Int)
  | LargeList (field : Field)
  | Struct (fields : List Field)
  | Union (fields : List (Int × Field)) (mode : UnionMode)
  | Dictionary (key : DataType) (value : DataType)
  | Decimal128 (precision : Nat) (scale : Int)
  | Decimal256 (precision : Nat) (scale : Int)
  | Map (entries : Field) (sorted : Bool)
  | RunEndEncoded (run_ends : Field) (values : Field)

/-- Arrow `Field`: the components read by identity/debug formatting. -/
inductive Field where
  | mk (name : String) (data_type : DataType) (nullable : Bool)
end

/-- `PythonType` enum from `src/common/data_type.rs`. -/
inductive PythonType where
  | Array
  | Bool
  | Bytes
  | Datetime
  | Float
  | Int
  | List
  | None
  | Object
  | Str
deriving DecidableEq

/-- `SqlType` enum from `src/common/data_type.rs`. -/
inductive SqlType where
  | ANY
  | ARRAY
  | BIGINT
  | BINARY
  | BOOLEAN
  | CHAR
  | COLUMN_LIST
  | CURSOR
  | DATE
  | DECIMAL
  | DISTINCT
  | DOUBLE
  | DYNAMIC_STAR
  | FLOAT
  | GEOMETRY
  | INTEGER
  | INTERVAL
  | INTERVAL_DAY
  | INTERVAL_DAY_HOUR
  | INTERVAL_DAY_MINUTE
  | INTERVAL_DAY_SECOND
  | INTERVAL_HOUR
  | INTERVAL_HOUR_MINUTE
  | INTERVAL_HOUR_SECOND
  | INTERVAL_MINUTE
  | INTERVAL_MINUTE_SECOND
  | INTERVAL_MONTH
  | INTERVAL_SECOND
  | INTERVAL_YEAR
  | INTERVAL_YEAR_MONTH
  | MAP
  | MULTISET
  | NULL
  | OTHER
  | REAL
  | ROW
  | SARG
  | SMALLINT
  | STRUCTURED
  | SYMBOL
  | TIME
  | TIME_WITH_LOCAL_TIME_ZONE
  | TIMESTAMP
  | TIMESTAMP_WITH_LOCAL_TIME_ZONE
  | TINYINT
  | UNKNOWN
  | VARBINARY
  | VARCHAR
deriving DecidableEq

/-- `PyDataType`: the pyo3 wrapper around Arrow `DataType`. -/
structure PyDataType where
  data_type : DataType

/-- `DataTypeMap`: the record tying an Arrow type, a Python type and a
SQL type together. -/
structure DataTypeMap where
  arrow_type : PyDataType
  python_type : PythonType
  sql_type : SqlType

/-- `DataTypeMap::new`. -/
def DataTypeMap.new (arrow_type : DataType) (python_type : PythonType)
    (sql_type : SqlType) : DataTypeMap :=
  { arrow_type := { data_type := arrow_type }, python_type, sql_type }

/-- The only `DataFusionError` variant this file constructs. -/
inductive DataFusionError where
  | NotImplemented (msg : String)
deriving DecidableEq

/-- `PyErr` as produced by `py_datafusion_err`: it wraps the DataFusion
error (the real code renders it into a Python exception; only the carried
message matters here). -/
structure PyErr where
  err : DataFusionError
deriving DecidableEq

/-- `crate::errors::py_datafusion_err`. -/
def py_datafusion_err (e : DataFusionError) : PyErr := { err := e }

/-- Debug rendering of `TimeUnit` (derived `Debug` in Rust). -/
def TimeUnit.debugFormat : TimeUnit → String
  | .Second => "Second"
  | .Millisecond => "Millisecond"
  | .Microsecond => "Microsecond"
  | .Nanosecond => "Nanosecond"

/-- Debug rendering of `IntervalUnit`. -/
def IntervalUnit.debugFormat : IntervalUnit → String
  | .YearMonth => "YearMonth"
  | .DayTime => "DayTime"
  | .MonthDayNano => "MonthDayNano"

/-- Debug rendering of `UnionMode`. -/
def UnionMode.debugFormat : UnionMode → String
  | .Sparse => "Sparse"
  | .Dense => "Dense"

/-- Debug rendering of an `Option<String>` timezone. -/
def tzDebugFormat : Option String → String
  | none => "None"
  | some s => "Some(\"" ++ s ++ "\")"

mutual
/-- Debug rendering of `DataType`, mirroring the derived `Debug`
instance on the modelled components (`format!("{:?}", arrow_type)`). -/
def DataType.debugFormat : DataType → String
  | .Null => "Null"
  | .Boolean => "Boolean"
  | .Int8 => "Int8"
  | .Int16 => "Int16"
  | .Int32 => "Int32"
  | .Int64 => "Int64"
  | .UInt8 => "UInt8"
  | .UInt16 => "UInt16"
  | .UInt32 => "UInt32"
  | .UInt64 => "UInt64"
  | .Float16 => "Float16"
  | .Float32 => "Float32"
  | .Float64 => "Float64"
  | .Timestamp u tz => "Timestamp(" ++ u.debugFormat ++ ", " ++ tzDebugFormat tz ++ ")"
  | .Date32 => "Date32"
  | .Date64 => "Date64"
  | .Time32 u => "Time32(" ++ u.debugFormat ++ ")"
  | .Time64 u => "Time64(" ++ u.debugFormat ++ ")"
  | .Duration u => "Duration(" ++ u.debugFormat ++ ")"
  | .Interval u => "Interval(" ++ u.debugFormat ++ ")"
  | .Binary => "Binary"
  | .FixedSizeBinary n => "FixedSizeBinary(" ++ toString n ++ ")"
  | .LargeBinary => "LargeBinary"
  | .Utf8 => "Utf8"
  | .LargeUtf8 => "LargeUtf8"
  | .List f => "List(" ++ f.debugFormat ++ ")"
  | .FixedSizeList f n => "FixedSizeList(" ++ f.debugFormat ++ ", " ++ toString n ++ ")"
  | .LargeList f => "LargeList(" ++ f.debugFormat ++ ")"
  | .Struct fs => "Struct([" ++ Field.listDebugFormat fs ++ "])"
  | .Union fs m =>
      "Union(UnionFields([" ++ Field.taggedListDebugFormat fs ++ "]), " ++ m.debugFormat ++ ")"
  | .Dictionary k v => "Dictionary(" ++ k.debugFormat ++ ", " ++ v.debugFormat ++ ")"
  | .Decimal128 p s => "Decimal128(" ++ toString p ++ ", " ++ toString s ++ ")"
  | .Decimal256 p s => "Decimal256(" ++ toString p ++ ", " ++ toString s ++ ")"
  | .Map f sorted => "Map(" ++ f.debugFormat ++ ", " ++ toString sorted ++ ")"
  | .RunEndEncoded f g => "RunEndEncoded(" ++ f.debugFormat ++ ", " ++ g.debugFormat ++ ")"

/-- Debug rendering of `Field` on its modelled components. -/
def Field.debugFormat : Field → String
  | .mk name dt nullable =>
      "Field \x7b name: \"" ++ name ++ "\", data_type: " ++ dt.debugFormat ++
        ", nullable: " ++ toString nullable ++ " \x7d"

/-- Debug rendering of a list of fields. -/
def Field.listDebugFormat : List Field → String
  | [] => ""
  | [f] => f.debugFormat
  | f :: g :: fs => f.debugFormat ++ ", " ++ Field.listDebugFormat (g :: fs)

/-- Debug rendering of tagged union fields. -/
def Field.taggedListDebugFormat : List (Int × Field) → String
  | [] => ""
  | [(i, f)] => "(" ++ toString i ++ ", " ++ f.debugFormat ++ ")"
  | (i, f) :: p :: fs =>
      "(" ++ toString i ++ ", " ++ f.debugFormat ++ "), " ++
        Field.taggedListDebugFormat (p :: fs)
end

/-- Debug rendering of `SqlType` (derived `Debug`: the variant name). -/
def SqlType.debugFormat : SqlType → String
  | .ANY => "ANY"
  | .ARRAY => "ARRAY"
  | .BIGINT => "BIGINT"
  | .BINARY => "BINARY"
  | .BOOLEAN => "BOOLEAN"
  | .CHAR => "CHAR"
  | .COLUMN_LIST => "COLUMN_LIST"
  | .CURSOR => "CURSOR"
  | .DATE => "DATE"
  | .DECIMAL => "DECIMAL"
  | .DISTINCT => "DISTINCT"
  | .DOUBLE => "DOUBLE"
  | .DYNAMIC_STAR => "DYNAMIC_STAR"
  | .FLOAT => "FLOAT"
  | .GEOMETRY => "GEOMETRY"
  | .INTEGER => "INTEGER"
  | .INTERVAL => "INTERVAL"
  | .INTERVAL_DAY => "INTERVAL_DAY"
  | .INTERVAL_DAY_HOUR => "INTERVAL_DAY_HOUR"
  | .INTERVAL_DAY_MINUTE => "INTERVAL_DAY_MINUTE"
  | .INTERVAL_DAY_SECOND => "INTERVAL_DAY_SECOND"
  | .INTERVAL_HOUR => "INTERVAL_HOUR"
  | .INTERVAL_HOUR_MINUTE => "INTERVAL_HOUR_MINUTE"
  | .INTERVAL_HOUR_SECOND => "INTERVAL_HOUR_SECOND"
  | .INTERVAL_MINUTE => "INTERVAL_MINUTE"
  | .INTERVAL_MINUTE_SECOND => "INTERVAL_MINUTE_SECOND"
  | .INTERVAL_MONTH => "INTERVAL_MONTH"
  | .INTERVAL_SECOND => "INTERVAL_SECOND"
  | .INTERVAL_YEAR => "INTERVAL_YEAR"
  | .INTERVAL_YEAR_MONTH => "INTERVAL_YEAR_MONTH"
  | .MAP => "MAP"
  | .MULTISET => "MULTISET"
  | .NULL => "NULL"
  | .OTHER => "OTHER"
  | .REAL => "REAL"
  | .ROW => "ROW"
  | .SARG => "SARG"
  | .SMALLINT => "SMALLINT"
  | .STRUCTURED => "STRUCTURED"
  | .SYMBOL => "SYMBOL"
  | .TIME => "TIME"
  | .TIME_WITH_LOCAL_TIME_ZONE => "TIME_WITH_LOCAL_TIME_ZONE"
  | .TIMESTAMP => "TIMESTAMP"
  | .TIMESTAMP_WITH_LOCAL_TIME_ZONE => "TIMESTAMP_WITH_LOCAL_TIME_ZONE"
  | .TINYINT => "TINYINT"
  | .UNKNOWN => "UNKNOWN"
  | .VARBINARY => "VARBINARY"
  | .VARCHAR => "VARCHAR"

/-- Shorthand for the `NotImplemented` error the Rust code builds from an
Arrow type: `py_datafusion_err(DataFusionError::NotImplemented(format!("{:?}", t)))`. -/
def unsupportedArrowErr (t : DataType) : PyErr :=
  py_datafusion_err (.NotImplemented t.debugFormat)

/-- Shorthand for the `NotImplemented` error built from a SQL type. -/
def unsupportedSqlErr (s : SqlType) : PyErr :=
  py_datafusion_err (.NotImplemented s.debugFormat)

/-- `DataTypeMap::map_from_arrow_type`, translated arm by arm from
`src/common/data_type.rs`. -/
def map_from_arrow_type : DataType → Except PyErr DataTypeMap
  | .Null => .ok (DataTypeMap.new .Null .None .NULL)
  | .Boolean => .ok (DataTypeMap.new .Boolean .Bool .BOOLEAN)
  | .Int8 => .ok (DataTypeMap.new .Int8 .Int .TINYINT)
  | .Int16 => .ok (DataTypeMap.new .Int16 .Int .SMALLINT)
  | .Int32 => .ok (DataTypeMap.new .Int32 .Int .INTEGER)
  | .Int64 => .ok (DataTypeMap.new .Int64 .Int .BIGINT)
  | .UInt8 => .ok (DataTypeMap.new .UInt8 .Int .TINYINT)
  | .UInt16 => .ok (DataTypeMap.new .UInt16 .Int .SMALLINT)
  | .UInt32 => .ok (DataTypeMap.new .UInt32 .Int .INTEGER)
  | .UInt64 => .ok (DataTypeMap.new .UInt64 .Int .BIGINT)
  | .Float16 => .ok (DataTypeMap.new .Float16 .Float .FLOAT)
  | .Float32 => .ok (DataTypeMap.new .Float32 .Float .FLOAT)
  | .Float64 => .ok (DataTypeMap.new .Float64 .Float .FLOAT)
  | .Timestamp unit tz => .ok (DataTypeMap.new (.Timestamp unit tz) .Datetime .DATE)
  | .Date32 => .ok (DataTypeMap.new .Date32 .Datetime .DATE)
  | .Date64 => .ok (DataTypeMap.new .Date64 .Datetime .DATE)
  | .Time32 unit => .ok (DataTypeMap.new (.Time32 unit) .Datetime .DATE)
  | .Time64 unit => .ok (DataTypeMap.new (.Time64 unit) .Datetime .DATE)
  | .Duration unit => .error (unsupportedArrowErr (.Duration unit))
  | .Interval interval_unit =>
      .ok (DataTypeMap.new (.Interval interval_unit) .Datetime
        (match interval_unit with
          | .DayTime => .INTERVAL_DAY
          | .MonthDayNano => .INTERVAL_MONTH
          | .YearMonth => .INTERVAL_YEAR_MONTH))
  | .Binary => .ok (DataTypeMap.new .Binary .Bytes .BINARY)
  | .FixedSizeBinary n => .error (unsupportedArrowErr (.FixedSizeBinary n))
  | .LargeBinary => .ok (DataTypeMap.new .LargeBinary .Bytes .BINARY)
  | .Utf8 => .ok (DataTypeMap.new .Utf8 .Str .VARCHAR)
  | .LargeUtf8 => .ok (DataTypeMap.new .LargeUtf8 .Str .VARCHAR)
  | .List f => .error (unsupportedArrowErr (.List f))
  | .FixedSizeList f n => .error (unsupportedArrowErr (.FixedSizeList f n))
  | .LargeList f => .error (unsupportedArrowErr (.LargeList f))
  | .Struct fs => .error (unsupportedArrowErr (.Struct fs))
  | .Union fs m => .error (unsupportedArrowErr (.Union fs m))
  | .Dictionary k v => .error (unsupportedArrowErr (.Dictionary k v))
  | .Decimal128 precision scale =>
      .ok (DataTypeMap.new (.Decimal128 precision scale) .Float .DECIMAL)
  | .Decimal256 precision scale =>
      .ok (DataTypeMap.new (.Decimal256 precision scale) .Float .DECIMAL)
  | .Map f sorted => .error (unsupportedArrowErr (.Map f sorted))
  | .RunEndEncoded f g => .error (unsupportedArrowErr (.RunEndEncoded f g))

/-- `ScalarValue` enum from `datafusion_common`, with the variants matched
by `map_from_scalar_to_arrow`.  Unread payloads are kept with their shapes
(options, list payloads); floating payloads are opaque integers. -/
inductive ScalarValue where
  | Boolean (v : Option Bool)
  | Float32 (v : Option Int)
  | Float64 (v : Option Int)
  | Decimal128 (v : Option Int) (precision : Nat) (scale : Int)
  | Dictionary (data_type : DataType) (scalar_type : ScalarValue)
  | Int8 (v : Option Int)
  | Int16 (v : Option Int)
  | Int32 (v : Option Int)
  | Int64 (v : Option Int)
  | UInt8 (v : Option Int)
  | UInt16 (v : Option Int)
  | UInt32 (v : Option Int)
  | UInt64 (v : Option Int)
  | Utf8 (v : Option String)
  | LargeUtf8 (v : Option String)
  | Binary (v : Option (List Nat))
  | LargeBinary (v : Option (List Nat))
  | Date32 (v : Option Int)
  | Date64 (v : Option Int)
  | Time32Second (v : Option Int)
  | Time32Millisecond (v : Option Int)
  | Time64Microsecond (v : Option Int)
  | Time64Nanosecond (v : Option Int)
  | Null
  | TimestampSecond (v : Option Int) (tz : Option String)
  | TimestampMillisecond (v : Option Int) (tz : Option String)
  | TimestampMicrosecond (v : Option Int) (tz : Option String)
  | TimestampNanosecond (v : Option Int) (tz : Option String)
  | IntervalYearMonth (v : Option Int)
  | IntervalDayTime (v : Option Int)
  | IntervalMonthDayNano (v : Option Int)
  | List (v : Option (List ScalarValue)) (field_ref : Field)
  | Struct (v : Option (List ScalarValue)) (fields : List Field)
  | FixedSizeBinary (size : Int) (v : Option (List Nat))

/-- `DataTypeMap::map_from_scalar_to_arrow`, translated arm by arm;
the only recursive arm is `Dictionary`, which recurses on the nested
scalar value. -/
def map_from_scalar_to_arrow : ScalarValue → Except PyErr DataType
  | .Boolean _ => .ok .Boolean
  | .Float32 _ => .ok .Float32
  | .Float64 _ => .ok .Float64
  | .Decimal128 _ precision scale => .ok (.Decimal128 precision scale)
  | .Dictionary data_type scalar_type => do
      .ok (.Dictionary data_type (← map_from_scalar_to_arrow scalar_type))
  | .Int8 _ => .ok .Int8
  | .Int16 _ => .ok .Int16
  | .Int32 _ => .ok .Int32
  | .Int64 _ => .ok .Int64
  | .UInt8 _ => .ok .UInt8
  | .UInt16 _ => .ok .UInt16
  | .UInt32 _ => .ok .UInt32
  | .UInt64 _ => .ok .UInt64
  | .Utf8 _ => .ok .Utf8
  | .LargeUtf8 _ => .ok .LargeUtf8
  | .Binary _ => .ok .Binary
  | .LargeBinary _ => .ok .LargeBinary
  | .Date32 _ => .ok .Date32
  | .Date64 _ => .ok .Date64
  | .Time32Second _ => .ok (.Time32 .Second)
  | .Time32Millisecond _ => .ok (.Time32 .Millisecond)
  | .Time64Microsecond _ => .ok (.Time64 .Microsecond)
  | .Time64Nanosecond _ => .ok (.Time64 .Nanosecond)
  | .Null => .ok .Null
  | .TimestampSecond _ tz => .ok (.Timestamp .Second tz)
  | .TimestampMillisecond _ tz => .ok (.Timestamp .Millisecond tz)
  | .TimestampMicrosecond _ tz => .ok (.Timestamp .Microsecond tz)
  | .TimestampNanosecond _ tz => .ok (.Timestamp .Nanosecond tz)
  | .IntervalYearMonth _ => .ok (.Interval .YearMonth)
  | .IntervalDayTime _ => .ok (.Interval .DayTime)
  | .IntervalMonthDayNano _ => .ok (.Interval .MonthDayNano)
  | .List _val field_ref => .ok (.List field_ref)
  | .Struct _ fields => .ok (.Struct fields)
  | .FixedSizeBinary size _ => .ok (.FixedSizeBinary size)

/-- `DataTypeMap::map_from_scalar_value`: infer the Arrow type of the
scalar, then classify it with `map_from_arrow_type`. -/
def map_from_scalar_value (scalar_val : ScalarValue) : Except PyErr DataTypeMap := do
  map_from_arrow_type (← map_from_scalar_to_arrow scalar_val)

/-- `DataTypeMap::py_map_from_sql_type` (the `DataTypeMap.sql` staticmethod),
translated arm by arm. -/
def py_map_from_sql_type : SqlType → Except PyErr DataTypeMap
  | .ANY => .error (unsupportedSqlErr .ANY)
  | .ARRAY => .error (unsupportedSqlErr .ARRAY)
  | .BIGINT => .ok (DataTypeMap.new .Int64 .Int .BIGINT)
  | .BINARY => .ok (DataTypeMap.new .Binary .Bytes .BINARY)
  | .BOOLEAN => .ok (DataTypeMap.new .Boolean .Bool .BOOLEAN)
  | .CHAR => .ok (DataTypeMap.new .UInt8 .Int .CHAR)
  | .COLUMN_LIST => .error (unsupportedSqlErr .COLUMN_LIST)
  | .CURSOR => .error (unsupportedSqlErr .CURSOR)
  | .DATE => .ok (DataTypeMap.new .Date64 .Datetime .DATE)
  | .DECIMAL => .ok (DataTypeMap.new (.Decimal128 1 1) .Float .DECIMAL)
  | .DISTINCT => .error (unsupportedSqlErr .DISTINCT)
  | .DOUBLE => .ok (DataTypeMap.new (.Decimal256 1 1) .Float .DOUBLE)
  | .DYNAMIC_STAR => .error (unsupportedSqlErr .DYNAMIC_STAR)
  | .FLOAT => .ok (DataTypeMap.new (.Decimal128 1 1) .Float .FLOAT)
  | .GEOMETRY => .error (unsupportedSqlErr .GEOMETRY)
  | .INTEGER => .ok (DataTypeMap.new .Int8 .Int .INTEGER)
  | .INTERVAL => .error (unsupportedSqlErr .INTERVAL)
  | .INTERVAL_DAY => .error (unsupportedSqlErr .INTERVAL_DAY)
  | .INTERVAL_DAY_HOUR => .error (unsupportedSqlErr .INTERVAL_DAY_HOUR)
  | .INTERVAL_DAY_MINUTE => .error (unsupportedSqlErr .INTERVAL_DAY_MINUTE)
  | .INTERVAL_DAY_SECOND => .error (unsupportedSqlErr .INTERVAL_DAY_SECOND)
  | .INTERVAL_HOUR => .error (unsupportedSqlErr .INTERVAL_HOUR)
  | .INTERVAL_HOUR_MINUTE => .error (unsupportedSqlErr .INTERVAL_HOUR_MINUTE)
  | .INTERVAL_HOUR_SECOND => .error (unsupportedSqlErr .INTERVAL_HOUR_SECOND)
  | .INTERVAL_MINUTE => .error (unsupportedSqlErr .INTERVAL_MINUTE)
  | .INTERVAL_MINUTE_SECOND => .error (unsupportedSqlErr .INTERVAL_MINUTE_SECOND)
  | .INTERVAL_MONTH => .error (unsupportedSqlErr .INTERVAL_MONTH)
  | .INTERVAL_SECOND => .error (unsupportedSqlErr .INTERVAL_SECOND)
  | .INTERVAL_YEAR => .error (unsupportedSqlErr .INTERVAL_YEAR)
  | .INTERVAL_YEAR_MONTH => .error (unsupportedSqlErr .INTERVAL_YEAR_MONTH)
  | .MAP => .error (unsupportedSqlErr .MAP)
  | .MULTISET => .error (unsupportedSqlErr .MULTISET)
  | .NULL => .ok (DataTypeMap.new .Null .None .NULL)
  | .OTHER => .error (unsupportedSqlErr .OTHER)
  | .REAL => .error (unsupportedSqlErr .REAL)
  | .ROW => .error (unsupportedSqlErr .ROW)
  | .SARG => .error (unsupportedSqlErr .SARG)
  | .SMALLINT => .ok (DataTypeMap.new .Int16 .Int .SMALLINT)
  | .STRUCTURED => .error (unsupportedSqlErr .STRUCTURED)
  | .SYMBOL => .error (unsupportedSqlErr .SYMBOL)
  | .TIME => .error (unsupportedSqlErr .TIME)
  | .TIME_WITH_LOCAL_TIME_ZONE => .error (unsupportedSqlErr .TIME_WITH_LOCAL_TIME_ZONE)
  | .TIMESTAMP => .error (unsupportedSqlErr .TIMESTAMP)
  | .TIMESTAMP_WITH_LOCAL_TIME_ZONE =>
      .error (unsupportedSqlErr .TIMESTAMP_WITH_LOCAL_TIME_ZONE)
  | .TINYINT => .ok (DataTypeMap.new .Int8 .Int .TINYINT)
  | .UNKNOWN => .error (unsupportedSqlErr .UNKNOWN)
  | .VARBINARY => .ok (DataTypeMap.new .LargeBinary .Bytes .VARBINARY)
  | .VARCHAR => .ok (DataTypeMap.new .Utf8 .Str .VARCHAR)

end DataFusionPy

namespace DataFusionPy

/-- Reducing an `Except` bind on a success value. -/
theorem except_bind_ok {α β ε : Type} (a : α) (f : α → Except ε β) :
    (Except.ok a : Except ε α) >>= f = f a := rfl

/-- Helper: the inference stage `map_from_scalar_to_arrow` succeeds on every
scalar value, including arbitrarily nested dictionary scalars (structural
recursion on the nested scalar). -/
theorem scalar_to_arrow_total : ∀ v : ScalarValue, ∃ t, map_from_scalar_to_arrow v = .ok t
  | .Boolean _ => ⟨_, rfl⟩
  | .Float32 _ => ⟨_, rfl⟩
  | .Float64 _ => ⟨_, rfl⟩
  | .Decimal128 _ _ _ => ⟨_, rfl⟩
  | .Dictionary dt inner =>
      match scalar_to_arrow_total inner with
      | ⟨t, ht⟩ => ⟨.Dictionary dt t, by simp [map_from_scalar_to_arrow, ht, except_bind_ok]⟩
  | .Int8 _ => ⟨_, rfl⟩
  | .Int16 _ => ⟨_, rfl⟩
  | .Int32 _ => ⟨_, rfl⟩
  | .Int64 _ => ⟨_, rfl⟩
  | .UInt8 _ => ⟨_, rfl⟩
  | .UInt16 _ => ⟨_, rfl⟩
  | .UInt32 _ => ⟨_, rfl⟩
  | .UInt64 _ => ⟨_, rfl⟩
  | .Utf8 _ => ⟨_, rfl⟩
  | .LargeUtf8 _ => ⟨_, rfl⟩
  | .Binary _ => ⟨_, rfl⟩
  | .LargeBinary _ => ⟨_, rfl⟩
  | .Date32 _ => ⟨_, rfl⟩
  | .Date64 _ => ⟨_, rfl⟩
  | .Time32Second _ => ⟨_, rfl⟩
  | .Time32Millisecond _ => ⟨_, rfl⟩
  | .Time64Microsecond _ => ⟨_, rfl⟩
  | .Time64Nanosecond _ => ⟨_, rfl⟩
  | .Null => ⟨_, rfl⟩
  | .TimestampSecond _ _ => ⟨_, rfl⟩
  | .TimestampMillisecond _ _ => ⟨_, rfl⟩
  | .TimestampMicrosecond _ _ => ⟨_, rfl⟩
  | .TimestampNanosecond _ _ => ⟨_, rfl⟩
  | .IntervalYearMonth _ => ⟨_, rfl⟩
  | .IntervalDayTime _ => ⟨_, rfl⟩
  | .IntervalMonthDayNano _ => ⟨_, rfl⟩
  | .List _ _ => ⟨_, rfl⟩
  | .Struct _ _ => ⟨_, rfl⟩
  | .FixedSizeBinary _ _ => ⟨_, rfl⟩

/-- Spec-side classifier: the physical types the specification lists as
unsupported by the forward classification (Duration, FixedSizeBinary, List,
FixedSizeList, LargeList, Struct, Union, Dictionary, Map, RunEndEncoded).
Written from the claim's enumeration, to be compared with
`map_from_arrow_type`. -/
def arrowUnsupportedSpec : DataType → Bool
  | .Duration _ => true
  | .FixedSizeBinary _ => true
  | .List _ => true
  | .FixedSizeList _ _ => true
  | .LargeList _ => true
  | .Struct _ => true
  | .Union _ _ => true
  | .Dictionary _ _ => true
  | .Map _ _ => true
  | .RunEndEncoded _ _ => true
  | _ => false

/-- Spec-side classifier: the SQL types the specification lists as having no
physical counterpart.  Written from the claim's enumeration, to be compared
with `py_map_from_sql_type`. -/
def sqlUnsupportedSpec : SqlType → Bool
  | .ANY => true
  | .ARRAY => true
  | .INTERVAL => true
  | .INTERVAL_DAY => true
  | .INTERVAL_DAY_HOUR => true
  | .INTERVAL_DAY_MINUTE => true
  | .INTERVAL_DAY_SECOND => true
  | .INTERVAL_HOUR => true
  | .INTERVAL_HOUR_MINUTE => true
  | .INTERVAL_HOUR_SECOND => true
  | .INTERVAL_MINUTE => true
  | .INTERVAL_MINUTE_SECOND => true
  | .INTERVAL_MONTH => true
  | .INTERVAL_SECOND => true
  | .INTERVAL_YEAR => true
  | .INTERVAL_YEAR_MONTH => true
  | .COLUMN_LIST => true
  | .CURSOR => true
  | .DISTINCT => true
  | .DYNAMIC_STAR => true
  | .GEOMETRY => true
  | .MAP => true
  | .MULTISET => true
  | .OTHER => true
  | .REAL => true
  | .ROW => true
  | .SARG => true
  | .STRUCTURED => true
  | .SYMBOL => true
  | .TIME => true
  | .TIME_WITH_LOCAL_TIME_ZONE => true
  | .TIMESTAMP => true
  | .TIMESTAMP_WITH_LOCAL_TIME_ZONE => true
  | .UNKNOWN => true
  | _ => false

/-- C1: every integer physical type maps to a `DataTypeMap` whose Python
host type is `Int` and whose SQL type matches the declared bit width:
Int8/UInt8 → TINYINT, Int16/UInt16 → SMALLINT, Int32/UInt32 → INTEGER,
Int64/UInt64 → BIGINT. -/
theorem arrow_integer_width_consistent :
    map_from_arrow_type .Int8 = .ok (DataTypeMap.new .Int8 .Int .TINYINT) ∧
    map_from_arrow_type .UInt8 = .ok (DataTypeMap.new .UInt8 .Int .TINYINT) ∧
    map_from_arrow_type .Int16 = .ok (DataTypeMap.new .Int16 .Int .SMALLINT) ∧
    map_from_arrow_type .UInt16 = .ok (DataTypeMap.new .UInt16 .Int .SMALLINT) ∧
    map_from_arrow_type .Int32 = .ok (DataTypeMap.new .Int32 .Int .INTEGER) ∧
    map_from_arrow_type .UInt32 = .ok (DataTypeMap.new .UInt32 .Int .INTEGER) ∧
    map_from_arrow_type .Int64 = .ok (DataTypeMap.new .Int64 .Int .BIGINT) ∧
    map_from_arrow_type .UInt64 = .ok (DataTypeMap.new .UInt64 .Int .BIGINT) :=
  ⟨rfl, rfl, rfl, rfl, rfl, rfl, rfl, rfl⟩

/-- C2: the default physical type chosen by `py_map_from_sql_type` for every
SQL type on which it succeeds: BIGINT→Int64, INTEGER→Int8, SMALLINT→Int16,
TINYINT→Int8, DATE→Date64, DECIMAL→Decimal128(1,1), FLOAT→Decimal128(1,1),
DOUBLE→Decimal256(1,1), CHAR→UInt8, BOOLEAN→Boolean, BINARY→Binary,
VARBINARY→LargeBinary, VARCHAR→Utf8, NULL→Null. -/
theorem sql_default_physical_types :
    py_map_from_sql_type .BIGINT = .ok (DataTypeMap.new .Int64 .Int .BIGINT) ∧
    py_map_from_sql_type .INTEGER = .ok (DataTypeMap.new .Int8 .Int .INTEGER) ∧
    py_map_from_sql_type .SMALLINT = .ok (DataTypeMap.new .Int16 .Int .SMALLINT) ∧
    py_map_from_sql_type .TINYINT = .ok (DataTypeMap.new .Int8 .Int .TINYINT) ∧
    py_map_from_sql_type .DATE = .ok (DataTypeMap.new .Date64 .Datetime .DATE) ∧
    py_map_from_sql_type .DECIMAL = .ok (DataTypeMap.new (.Decimal128 1 1) .Float .DECIMAL) ∧
    py_map_from_sql_type .FLOAT = .ok (DataTypeMap.new (.Decimal128 1 1) .Float .FLOAT) ∧
    py_map_from_sql_type .DOUBLE = .ok (DataTypeMap.new (.Decimal256 1 1) .Float .DOUBLE) ∧
    py_map_from_sql_type .CHAR = .ok (DataTypeMap.new .UInt8 .Int .CHAR) ∧
    py_map_from_sql_type .BOOLEAN = .ok (DataTypeMap.new .Boolean .Bool .BOOLEAN) ∧
    py_map_from_sql_type .BINARY = .ok (DataTypeMap.new .Binary .Bytes .BINARY) ∧
    py_map_from_sql_type .VARBINARY = .ok (DataTypeMap.new .LargeBinary .Bytes .VARBINARY) ∧
    py_map_from_sql_type .VARCHAR = .ok (DataTypeMap.new .Utf8 .Str .VARCHAR) ∧
    py_map_from_sql_type .NULL = .ok (DataTypeMap.new .Null .None .NULL) :=
  ⟨rfl, rfl, rfl, rfl, rfl, rfl, rfl, rfl, rfl, rfl, rfl, rfl, rfl, rfl⟩

/-- C3: `map_from_arrow_type` fails, with the `NotImplemented` error naming
the offending type (its debug rendering), exactly on Duration,
FixedSizeBinary, List, FixedSizeList, LargeList, Struct, Union, Dictionary,
Map and RunEndEncoded; every other variant succeeds with a `DataTypeMap`. -/
theorem arrow_unsupported_exactly (t : DataType) :
    (arrowUnsupportedSpec t = true →
      map_from_arrow_type t = .error (py_datafusion_err (.NotImplemented t.debugFormat))) ∧
    (arrowUnsupportedSpec t = false → ∃ m, map_from_arrow_type t = .ok m) := by
  cases t <;>
    first
      | exact ⟨fun _ => rfl, fun h => nomatch h⟩
      | exact ⟨(fun h => nomatch h), fun _ => ⟨_, rfl⟩⟩

/-- Witness for C3 at concrete inputs: `Duration(Second)` is rejected with
an error naming it, and `Int32` succeeds. -/
theorem arrow_unsupported_exactly_witness :
    map_from_arrow_type (.Duration .Second) =
      .error (py_datafusion_err (.NotImplemented "Duration(Second)")) ∧
    ∃ m, map_from_arrow_type .Int32 = .ok m :=
  ⟨(arrow_unsupported_exactly (.Duration .Second)).1 rfl,
    (arrow_unsupported_exactly .Int32).2 rfl⟩

/-- C4: `py_map_from_sql_type` fails, with the `NotImplemented` error naming
the SQL type, exactly on ANY, ARRAY, INTERVAL and every INTERVAL_* variant,
COLUMN_LIST, CURSOR, DISTINCT, DYNAMIC_STAR, GEOMETRY, MAP, MULTISET, OTHER,
REAL, ROW, SARG, STRUCTURED, SYMBOL, TIME, TIME_WITH_LOCAL_TIME_ZONE,
TIMESTAMP, TIMESTAMP_WITH_LOCAL_TIME_ZONE and UNKNOWN; every other variant
succeeds. -/
theorem sql_unsupported_exactly (s : SqlType) :
    (sqlUnsupportedSpec s = true →
      py_map_from_sql_type s = .error (py_datafusion_err (.NotImplemented s.debugFormat))) ∧
    (sqlUnsupportedSpec s = false → ∃ m, py_map_from_sql_type s = .ok m) := by
  cases s <;>
    first
      | exact ⟨fun _ => rfl, fun h => nomatch h⟩
      | exact ⟨(fun h => nomatch h), fun _ => ⟨_, rfl⟩⟩

/-- Witness for C4 at concrete inputs: `TIMESTAMP` is rejected with an error
naming it, and `VARCHAR` succeeds. -/
theorem sql_unsupported_exactly_witness :
    py_map_from_sql_type .TIMESTAMP =
      .error (py_datafusion_err (.NotImplemented "TIMESTAMP")) ∧
    ∃ m, py_map_from_sql_type .VARCHAR = .ok m :=
  ⟨(sql_unsupported_exactly .TIMESTAMP).1 rfl,
    (sql_unsupported_exactly .VARCHAR).2 rfl⟩

/-- C5: on every parameterized physical type on which `map_from_arrow_type`
succeeds (Decimal128, Decimal256, Timestamp, Time32, Time64, Interval), the
physical field of the returned record is the input with all parameters
unchanged. -/
theorem arrow_parameter_fidelity (p : Nat) (sc : Int) (u : TimeUnit)
    (tz : Option String) (iu : IntervalUnit) :
    (∃ m, map_from_arrow_type (.Decimal128 p sc) = .ok m ∧
      m.arrow_type.data_type = .Decimal128 p sc) ∧
    (∃ m, map_from_arrow_type (.Decimal256 p sc) = .ok m ∧
      m.arrow_type.data_type = .Decimal256 p sc) ∧
    (∃ m, map_from_arrow_type (.Timestamp u tz) = .ok m ∧
      m.arrow_type.data_type = .Timestamp u tz) ∧
    (∃ m, map_from_arrow_type (.Time32 u) = .ok m ∧
      m.arrow_type.data_type = .Time32 u) ∧
    (∃ m, map_from_arrow_type (.Time64 u) = .ok m ∧
      m.arrow_type.data_type = .Time64 u) ∧
    (∃ m, map_from_arrow_type (.Interval iu) = .ok m ∧
      m.arrow_type.data_type = .Interval iu) :=
  ⟨⟨_, rfl, rfl⟩, ⟨_, rfl, rfl⟩, ⟨_, rfl, rfl⟩, ⟨_, rfl, rfl⟩, ⟨_, rfl, rfl⟩,
    ⟨_, rfl, rfl⟩⟩

/-- C6: `map_from_scalar_value` is the composition of the inference stage
with the classification stage, for every scalar value; in particular any
Int32-tagged value (payload 42 included) classifies exactly like the
physical type Int32. -/
theorem scalar_value_composition :
    (∀ v : ScalarValue,
      map_from_scalar_value v = map_from_scalar_to_arrow v >>= map_from_arrow_type) ∧
    (∀ payload : Option Int,
      map_from_scalar_value (.Int32 payload) = map_from_arrow_type .Int32) ∧
    map_from_scalar_value (.Int32 (some 42)) = map_from_arrow_type .Int32 :=
  ⟨fun _ => rfl, fun _ => rfl, rfl⟩

/-- C7: on scalars tagged List, Struct, FixedSizeBinary or Dictionary the
inference stage succeeds with the corresponding container physical type, but
the overall `map_from_scalar_value` fails because the classification stage
rejects that container type. -/
theorem container_scalar_inference_rejected (v : Option (List ScalarValue))
    (f : Field) (fs : List Field) (n : Int) (b : Option (List Nat))
    (dt : DataType) (inner : ScalarValue) :
    (map_from_scalar_to_arrow (.List v f) = .ok (.List f) ∧
      map_from_scalar_value (.List v f) = .error (unsupportedArrowErr (.List f))) ∧
    (map_from_scalar_to_arrow (.Struct v fs) = .ok (.Struct fs) ∧
      map_from_scalar_value (.Struct v fs) = .error (unsupportedArrowErr (.Struct fs))) ∧
    (map_from_scalar_to_arrow (.FixedSizeBinary n b) = .ok (.FixedSizeBinary n) ∧
      map_from_scalar_value (.FixedSizeBinary n b) =
        .error (unsupportedArrowErr (.FixedSizeBinary n))) ∧
    (∃ ti, map_from_scalar_to_arrow (.Dictionary dt inner) = .ok (.Dictionary dt ti) ∧
      map_from_scalar_value (.Dictionary dt inner) =
        .error (unsupportedArrowErr (.Dictionary dt ti))) := by
  refine ⟨⟨rfl, rfl⟩, ⟨rfl, rfl⟩, ⟨rfl, rfl⟩, ?_⟩
  obtain ⟨ti, hti⟩ := scalar_to_arrow_total inner
  have h1 : map_from_scalar_to_arrow (.Dictionary dt inner) = .ok (.Dictionary dt ti) := by
    simp [map_from_scalar_to_arrow, hti, except_bind_ok]
  exact ⟨ti, h1, by simp [map_from_scalar_value, h1, except_bind_ok,
    map_from_arrow_type]⟩

/-- C8: `py_map_from_sql_type INTEGER` picks the physical type Int8, while
`map_from_arrow_type Int8` classifies as TINYINT, so the SQL → physical →
SQL round trip is not the identity on INTEGER. -/
theorem sql_roundtrip_not_identity :
    py_map_from_sql_type .INTEGER = .ok (DataTypeMap.new .Int8 .Int .INTEGER) ∧
    map_from_arrow_type .Int8 = .ok (DataTypeMap.new .Int8 .Int .TINYINT) ∧
    ∃ (s : SqlType) (m m2 : DataTypeMap),
      py_map_from_sql_type s = .ok m ∧
      map_from_arrow_type m.arrow_type.data_type = .ok m2 ∧
      m2.sql_type ≠ s :=
  ⟨rfl, rfl, .INTEGER, DataTypeMap.new .Int8 .Int .INTEGER,
    DataTypeMap.new .Int8 .Int .TINYINT, rfl, rfl, by decide⟩

/-- C9: every mapping call terminates with a value: the two classification
functions return either a record or an error on each variant of their
enumeration, and the inference stage (the only recursive function,
structurally recursive on the nested dictionary scalar) returns an Arrow
type on every scalar, so `map_from_scalar_value` also always returns. -/
theorem mapping_totality :
    (∀ t : DataType, (∃ m, map_from_arrow_type t = .ok m) ∨
      (∃ e, map_from_arrow_type t = .error e)) ∧
    (∀ s : SqlType, (∃ m, py_map_from_sql_type s = .ok m) ∨
      (∃ e, py_map_from_sql_type s = .error e)) ∧
    (∀ v : ScalarValue, ∃ t, map_from_scalar_to_arrow v = .ok t) ∧
    (∀ v : ScalarValue, (∃ m, map_from_scalar_value v = .ok m) ∨
      (∃ e, map_from_scalar_value v = .error e)) := by
  refine ⟨fun t => ?_, fun s => ?_, scalar_to_arrow_total, fun v => ?_⟩
  · cases t <;> first | exact .inl ⟨_, rfl⟩ | exact .inr ⟨_, rfl⟩
  · cases s <;> first | exact .inl ⟨_, rfl⟩ | exact .inr ⟨_, rfl⟩
  · cases h : map_from_scalar_value v with
    | ok m => exact .inl ⟨m, rfl⟩
    | error e => exact .inr ⟨e, rfl⟩

/-- C10: every Interval physical type maps forward to an INTERVAL_* SQL type
(YearMonth to INTERVAL_YEAR_MONTH in particular), and feeding that SQL type
back into `py_map_from_sql_type` fails with the error naming it: a
successful forward mapping does not guarantee a successful reverse mapping
of its SQL component. -/
theorem interval_forward_reverse_asymmetry :
    (∀ iu : IntervalUnit, ∃ m : DataTypeMap,
      map_from_arrow_type (.Interval iu) = .ok m ∧
      (m.sql_type = .INTERVAL_DAY ∨ m.sql_type = .INTERVAL_MONTH ∨
        m.sql_type = .INTERVAL_YEAR_MONTH) ∧
      py_map_from_sql_type m.sql_type = .error (unsupportedSqlErr m.sql_type)) ∧
    map_from_arrow_type (.Interval .YearMonth) =
      .ok (DataTypeMap.new (.Interval .YearMonth) .Datetime .INTERVAL_YEAR_MONTH) ∧
    (∃ (t : DataType) (m : DataTypeMap), map_from_arrow_type t = .ok m ∧
      ∃ e, py_map_from_sql_type m.sql_type = .error e) := by
  refine ⟨fun iu => ?_, rfl,
    ⟨.Interval .YearMonth,
      DataTypeMap.new (.Interval .YearMonth) .Datetime .INTERVAL_YEAR_MONTH, rfl,
      unsupportedSqlErr .INTERVAL_YEAR_MONTH, rfl⟩⟩
  cases iu with
  | YearMonth => exact ⟨_, rfl, .inr (.inr rfl), rfl⟩
  | DayTime => exact ⟨_, rfl, .inl rfl, rfl⟩
  | MonthDayNano => exact ⟨_, rfl, .inr (.inl rfl), rfl⟩

end DataFusionPy
